import Mathlib

/-!
Shallow embedding of `src/control.cpp` (namespace `Control`) of the
librover motion-control core, together with theorems settling the
specification claims.

Modelling conventions:
* C++ `float` arithmetic is embedded as exact arithmetic in a linear
  ordered field `K` (instantiated at `ℚ` or `ℝ`); where IEEE special
  values (NaN/Inf from division by zero) are the point of a claim, a
  small explicit value type `FV` with `fin/nan/inf/ninf` constructors
  is used instead, with exact rational arithmetic on finite values.
* `std::chrono` timestamps are embedded as integer millisecond counts
  passed explicitly to `runControl`; the system-clock read becomes an
  explicit argument `time_now`.
* C++ integer division (used for `count() / 1000`) truncates toward
  zero, which is `Int.tdiv`.
* `std::numeric_limits<float>::max()` is the exact rational
  `2^128 - 2^104`; `lowest()` is its negation.
-/

namespace Control

/-- `std::numeric_limits<float>::max()`, exactly `(2 - 2⁻²³) · 2¹²⁷`. -/
def floatMax (K : Type) [LinearOrderedField K] : K := 2 ^ 128 - 2 ^ 104

/-- `std::numeric_limits<float>::lowest()`. -/
def floatLowest (K : Type) [LinearOrderedField K] : K := -(floatMax K)

/-- `motor_data`: one scalar per wheel (front-left, front-right,
rear-left, rear-right); speeds or duty cycles depending on context. -/
structure motor_data (K : Type) where
  fl : K
  fr : K
  rl : K
  rr : K
deriving DecidableEq

/-- `robot_velocities`: linear (m/s) and angular (rad/s) velocity. -/
structure robot_velocities (K : Type) where
  linear_velocity : K
  angular_velocity : K
deriving DecidableEq

/-- `robot_geometry`: wheel base, intra-axle distance, wheel radius. -/
structure robot_geometry (K : Type) where
  wheel_base : K
  intra_axle_distance : K
  wheel_radius : K
deriving DecidableEq

/-- `pid_gains`. -/
structure pid_gains (K : Type) where
  kp : K
  ki : K
  kd : K
deriving DecidableEq

/-- `pid_output_limits`. -/
structure pid_output_limits (K : Type) where
  posmax : K
  negmax : K
deriving DecidableEq

/-- `pid_outputs`: the diagnostic record returned by
`PidController::runControl`. -/
structure pid_outputs (K : Type) where
  pid_output : K
  dt : K
  error : K
  integral_error : K
  target_value : K
  measured_value : K
  kp : K
  ki : K
  kd : K
deriving DecidableEq

/-- Modelled from the spec: the constant `RPM_TO_RADS_SEC` is declared
in the header `control.hpp`, which is not part of the sources; the
standard rpm-to-rad/s conversion factor `π/30` is used.  No claim
depends on its numeric value. -/
noncomputable def RPM_TO_RADS_SEC : ℝ := Real.pi / 30

/-- Radius of the robot's stance, `control.cpp` lines 13-14:
`sqrt(pow(0.5*wheel_base,2) + pow(0.5*intra_axle_distance,2))`. -/
noncomputable def stanceRadius (g : robot_geometry ℝ) : ℝ :=
  Real.sqrt ((0.5 * g.wheel_base) ^ 2 + (0.5 * g.intra_axle_distance) ^ 2)

/-- Circumference of the robot's stance, `control.cpp` line 17:
`2 * M_PI * rs`. -/
noncomputable def stanceCircumference (g : robot_geometry ℝ) : ℝ :=
  2 * Real.pi * stanceRadius g

/-- `Control::computeVelocitiesFromWheelspeeds` (`control.cpp` 9-37),
with `float` embedded as `ℝ` (division by zero denotes Lean's `x/0 = 0`
here; see `computeVelocitiesChecked` for the division-by-zero guard
analysis). -/
noncomputable def computeVelocitiesFromWheelspeeds
    (wheel_speeds : motor_data ℝ) (g : robot_geometry ℝ) :
    robot_velocities ℝ :=
  let cs := stanceCircumference g
  let left_travel_rate :=
    min wheel_speeds.fl wheel_speeds.rl * RPM_TO_RADS_SEC * g.wheel_radius
  let right_travel_rate :=
    min wheel_speeds.fr wheel_speeds.rr * RPM_TO_RADS_SEC * g.wheel_radius
  let travel_differential := right_travel_rate - left_travel_rate
  { linear_velocity := min left_travel_rate right_travel_rate
    angular_velocity := travel_differential / cs }

/-- The same function with the single division instrumented: the C++
body divides `travel_differential / cs` unconditionally (there is no
guard and the return type `robot_velocities` has no error channel), so
when `cs = 0` the IEEE result is `±Inf` (or `NaN` when the differential
is also zero).  This embedding returns `none` exactly when that
unguarded division by zero is reached. -/
noncomputable def computeVelocitiesChecked
    (wheel_speeds : motor_data ℝ) (g : robot_geometry ℝ) :
    Option (robot_velocities ℝ) :=
  let cs := stanceCircumference g
  let left_travel_rate :=
    min wheel_speeds.fl wheel_speeds.rl * RPM_TO_RADS_SEC * g.wheel_radius
  let right_travel_rate :=
    min wheel_speeds.fr wheel_speeds.rr * RPM_TO_RADS_SEC * g.wheel_radius
  let travel_differential := right_travel_rate - left_travel_rate
  if cs = 0 then none
  else some
    { linear_velocity := min left_travel_rate right_travel_rate
      angular_velocity := travel_differential / cs }

/-- `Control::limitAcceleration` (`control.cpp` 39-71) over a linear
ordered field; the four `if` statements are kept in source order. -/
def limitAcceleration {K : Type} [LinearOrderedField K]
    (target_velocities measured_velocities delta_v_limits :
      robot_velocities K) (dt : K) : robot_velocities K :=
  let linear_acceleration :=
    (target_velocities.linear_velocity -
      measured_velocities.linear_velocity) / dt
  let angular_acceleration :=
    (target_velocities.angular_velocity -
      measured_velocities.angular_velocity) / dt
  let linear_acceleration :=
    if linear_acceleration > delta_v_limits.linear_velocity then
      delta_v_limits.linear_velocity else linear_acceleration
  let linear_acceleration :=
    if linear_acceleration < -delta_v_limits.linear_velocity then
      -delta_v_limits.linear_velocity else linear_acceleration
  let angular_acceleration :=
    if angular_acceleration > delta_v_limits.angular_velocity then
      delta_v_limits.angular_velocity else angular_acceleration
  let angular_acceleration :=
    if angular_acceleration < -delta_v_limits.angular_velocity then
      -delta_v_limits.angular_velocity else angular_acceleration
  { linear_velocity :=
      measured_velocities.linear_velocity + linear_acceleration * dt
    angular_velocity :=
      measured_velocities.angular_velocity + angular_acceleration * dt }

/-- IEEE-style float value: a finite value (exact rational, ignoring
rounding, which no claim depends on), NaN, +Inf or -Inf. -/
inductive FV : Type where
  | fin (q : ℚ)
  | nan
  | inf
  | ninf
deriving DecidableEq

namespace FV

/-- IEEE subtraction on `FV`. -/
def sub : FV → FV → FV
  | fin a, fin b => fin (a - b)
  | nan, _ => nan
  | _, nan => nan
  | inf, inf => nan
  | inf, _ => inf
  | ninf, ninf => nan
  | ninf, _ => ninf
  | fin _, inf => ninf
  | fin _, ninf => inf

/-- IEEE addition on `FV`. -/
def add : FV → FV → FV
  | fin a, fin b => fin (a + b)
  | nan, _ => nan
  | _, nan => nan
  | inf, ninf => nan
  | inf, _ => inf
  | ninf, inf => nan
  | ninf, _ => ninf
  | fin _, inf => inf
  | fin _, ninf => ninf

/-- IEEE multiplication on `FV`. -/
def mul : FV → FV → FV
  | fin a, fin b => fin (a * b)
  | nan, _ => nan
  | _, nan => nan
  | inf, inf => inf
  | inf, ninf => ninf
  | ninf, inf => ninf
  | ninf, ninf => inf
  | inf, fin b => if b = 0 then nan else if 0 < b then inf else ninf
  | ninf, fin b => if b = 0 then nan else if 0 < b then ninf else inf
  | fin a, inf => if a = 0 then nan else if 0 < a then inf else ninf
  | fin a, ninf => if a = 0 then nan else if 0 < a then ninf else inf

/-- IEEE division on `FV`.  Finite literals carry no sign of zero, so a
zero divisor is treated as `+0` (the only case the source reaches,
`dt = 0` resp. `cs = 0`). -/
def div : FV → FV → FV
  | fin a, fin b =>
      if b = 0 then (if a = 0 then nan else if 0 < a then inf else ninf)
      else fin (a / b)
  | nan, _ => nan
  | _, nan => nan
  | inf, inf => nan
  | inf, ninf => nan
  | ninf, inf => nan
  | ninf, ninf => nan
  | inf, fin b => if 0 ≤ b then inf else ninf
  | ninf, fin b => if 0 ≤ b then ninf else inf
  | fin _, inf => fin 0
  | fin _, ninf => fin 0

/-- IEEE negation on `FV`. -/
def neg : FV → FV
  | fin a => fin (-a)
  | nan => nan
  | inf => ninf
  | ninf => inf

/-- IEEE `>` comparison: any comparison with NaN is false. -/
def gt : FV → FV → Bool
  | fin a, fin b => b < a
  | nan, _ => false
  | _, nan => false
  | inf, inf => false
  | inf, _ => true
  | ninf, _ => false
  | fin _, inf => false
  | fin _, ninf => true

/-- IEEE `<` comparison: any comparison with NaN is false. -/
def lt : FV → FV → Bool
  | fin a, fin b => a < b
  | nan, _ => false
  | _, nan => false
  | inf, _ => false
  | ninf, ninf => false
  | ninf, _ => true
  | fin _, inf => true
  | fin _, ninf => false

/-- `Control::limitAcceleration` (`control.cpp` 39-71) again, but with
`float` embedded as `FV` so that the IEEE behaviour of the unguarded
division `(target - measured) / dt` at `dt = 0` is captured. -/
def limitAcceleration
    (target_velocities measured_velocities delta_v_limits :
      robot_velocities FV) (dt : FV) : robot_velocities FV :=
  let linear_acceleration :=
    div (sub target_velocities.linear_velocity
      measured_velocities.linear_velocity) dt
  let angular_acceleration :=
    div (sub target_velocities.angular_velocity
      measured_velocities.angular_velocity) dt
  let linear_acceleration :=
    if gt linear_acceleration delta_v_limits.linear_velocity then
      delta_v_limits.linear_velocity else linear_acceleration
  let linear_acceleration :=
    if lt linear_acceleration (neg delta_v_limits.linear_velocity) then
      neg delta_v_limits.linear_velocity else linear_acceleration
  let angular_acceleration :=
    if gt angular_acceleration delta_v_limits.angular_velocity then
      delta_v_limits.angular_velocity else angular_acceleration
  let angular_acceleration :=
    if lt angular_acceleration (neg delta_v_limits.angular_velocity) then
      neg delta_v_limits.angular_velocity else angular_acceleration
  { linear_velocity :=
      add measured_velocities.linear_velocity
        (mul linear_acceleration dt)
    angular_velocity :=
      add measured_velocities.angular_velocity
        (mul angular_acceleration dt) }

end FV

/-- `PidController` state: gains, output limits, the persistent
integral-error accumulator and the last-update timestamp (whole
milliseconds, the representation of `std::chrono::milliseconds`). -/
structure PidController (K : Type) where
  kp_ : K
  kd_ : K
  ki_ : K
  integral_error_ : K
  integral_error_limit_ : K
  pos_max_output_ : K
  neg_max_output_ : K
  time_last_ : ℤ
deriving DecidableEq

namespace PidController

variable {K : Type} [LinearOrderedField K]

/-- One-argument constructor (`control.cpp` 74-85): default limits are
the `float` extrema; `time_last_` is initialised from the system clock,
embedded as the explicit argument `now`. -/
def mkGains (g : pid_gains K) (now : ℤ) : PidController K :=
  { kp_ := g.kp, kd_ := g.kd, ki_ := g.ki
    integral_error_ := 0
    integral_error_limit_ := floatMax K
    pos_max_output_ := floatMax K
    neg_max_output_ := floatLowest K
    time_last_ := now }

/-- Two-argument constructor (`control.cpp` 87-99). -/
def mkGainsLimits (g : pid_gains K) (lim : pid_output_limits K)
    (now : ℤ) : PidController K :=
  { kp_ := g.kp, kd_ := g.kd, ki_ := g.ki
    integral_error_ := 0
    integral_error_limit_ := floatMax K
    pos_max_output_ := lim.posmax
    neg_max_output_ := lim.negmax
    time_last_ := now }

/-- `PidController::setGains` (`control.cpp` 101-105). -/
def setGains (c : PidController K) (g : pid_gains K) : PidController K :=
  { c with kp_ := g.kp, kd_ := g.kd, ki_ := g.ki }

/-- `PidController::setOutputLimits` (`control.cpp` 115-118): the
limits are stored unconditionally; there is no validation and the
return type is `void`. -/
def setOutputLimits (c : PidController K) (lim : pid_output_limits K) :
    PidController K :=
  { c with pos_max_output_ := lim.posmax, neg_max_output_ := lim.negmax }

/-- `PidController::setIntegralErrorLimit` (`control.cpp` 127-129). -/
def setIntegralErrorLimit (c : PidController K) (error_limit : K) :
    PidController K :=
  { c with integral_error_limit_ := error_limit }

/-- `PidController::runControl` (`control.cpp` 133-207).  The system
clock read becomes the explicit argument `time_now` (milliseconds);
`delta_time` is the C++ integer division `(time_now - time_last_)
.count() / 1000` (truncation toward zero, `Int.tdiv`) converted to
`float`.  Returns the updated controller state and the diagnostic
record. -/
def runControl (c : PidController K) (target measured : K)
    (time_now : ℤ) : PidController K × pid_outputs K :=
  let delta_time : K := ((Int.tdiv (time_now - c.time_last_) 1000 : ℤ) : K)
  let error := target - measured
  let ie := c.integral_error_ + error
  let ie := if ie > c.integral_error_limit_ then
    c.integral_error_limit_ else ie
  let ie := if ie < -c.integral_error_limit_ then
    -c.integral_error_limit_ else ie
  let p := error * c.kp_
  let i := ie * c.ki_
  let d := delta_time * c.kd_
  let output := p + i + d
  let output := if output > c.pos_max_output_ then
    c.pos_max_output_ else output
  let output := if output < c.neg_max_output_ then
    c.neg_max_output_ else output
  ({ c with integral_error_ := ie, time_last_ := time_now },
   { pid_output := output
     dt := delta_time
     error := error
     integral_error := ie
     target_value := target
     measured_value := measured
     kp := c.kp_
     ki := c.ki_
     kd := c.kd_ })

/-- A sequence of `runControl` calls on one instance: each list entry
is `(target, measured, time_now)`. -/
def runSequence (c : PidController K) :
    List (K × K × ℤ) → PidController K
  | [] => c
  | (t, m, now) :: rest => runSequence (runControl c t m now).1 rest

end PidController

/-- `robot_motion_mode_t`. -/
inductive robot_motion_mode_t : Type where
  | OPEN_LOOP
  | CLOSED_LOOP
deriving DecidableEq

/-- `SkidRobotMotionController` configuration state. -/
structure SkidRobotMotionController (K : Type) where
  operating_mode_ : robot_motion_mode_t
  robot_geometry_ : robot_geometry K
  pid_gains_ : pid_gains K
  traction_control_gain_ : K
  max_motor_duty_ : K
  lpf_alpha_ : K
  max_linear_acceleration_ : K
  max_angular_acceleration_ : K
deriving DecidableEq

namespace SkidRobotMotionController

variable {K : Type} [LinearOrderedField K]

/-- Four-argument constructor (`control.cpp` 214-225): stores the
arguments unconditionally — non-positive geometry dimensions are not
checked and no error is reported. -/
def mkFull (operating_mode : robot_motion_mode_t)
    (g : robot_geometry K) (gains : pid_gains K)
    (max_motor_duty : K) : SkidRobotMotionController K :=
  { operating_mode_ := operating_mode
    robot_geometry_ := g
    pid_gains_ := gains
    traction_control_gain_ := 1
    max_motor_duty_ := max_motor_duty
    lpf_alpha_ := 1
    max_linear_acceleration_ := floatMax K
    max_angular_acceleration_ := floatMax K }

/-- `SkidRobotMotionController::setAccelerationLimits`
(`control.cpp` 227-230). -/
def setAccelerationLimits (s : SkidRobotMotionController K)
    (limits : robot_velocities K) : SkidRobotMotionController K :=
  { s with max_linear_acceleration_ := limits.linear_velocity
           max_angular_acceleration_ := limits.angular_velocity }

/-- `SkidRobotMotionController::setRobotGeometry` (`control.cpp`
248-251): plain unconditional assignment, `void` return — no
validation of the geometry and no error report. -/
def setRobotGeometry (s : SkidRobotMotionController K)
    (g : robot_geometry K) : SkidRobotMotionController K :=
  { s with robot_geometry_ := g }

/-- `SkidRobotMotionController::setOperatingMode` (`control.cpp`
239-242). -/
def setOperatingMode (s : SkidRobotMotionController K)
    (operating_mode : robot_motion_mode_t) :
    SkidRobotMotionController K :=
  { s with operating_mode_ := operating_mode }

/-- `SkidRobotMotionController::setMotorMaxDuty` (`control.cpp`
270-272). -/
def setMotorMaxDuty (s : SkidRobotMotionController K)
    (max_motor_duty : K) : SkidRobotMotionController K :=
  { s with max_motor_duty_ := max_motor_duty }

/-- `SkidRobotMotionController::runMotionControl` exactly as it stands
in the source (`control.cpp` 280-295): the body computes the estimated
robot velocities and then ends at the comment `/* limit acceleration */`
with no return statement — §4.3 steps 2-8 are absent, so the function
(declared to return `motor_data`) produces no duty set; the embedding
returns `none` for every input. -/
noncomputable def runMotionControl (s : SkidRobotMotionController ℝ)
    (velocity_targets : robot_velocities ℝ)
    (current_duty_cycles current_motor_speeds : motor_data ℝ) :
    Option (motor_data ℝ) :=
  let measured_velocities :=
    computeVelocitiesFromWheelspeeds current_motor_speeds s.robot_geometry_
  none

end SkidRobotMotionController

/-- Clamp `x` to `[-m, m]` — §4.3 step 7, written as the two-sided
if-sequence of the source's other clamps (`min`/`max` form). -/
def clampMag {K : Type} [LinearOrderedField K] (m x : K) : K :=
  max (-m) (min m x)

/-- Modelled from the spec: §4.3 steps 2-8 of
`SkidRobotMotionController::runMotionControl` are missing from
`control.cpp` (the body stops after step 1 with no return statement),
so they are modelled here from the spec's words, reusing the source
embeddings for step 1 (`computeVelocitiesFromWheelspeeds`), step 2
(`limitAcceleration`) and step 4 (`PidController.runControl`).
The cycle period `dt`, the per-side PID instances with the current
timestamp `now`, and the open-loop duty scale are supplied by the
caller, as the spec's external control loop does. -/
noncomputable def runMotionControlModel
    (s : SkidRobotMotionController ℝ)
    (pidLeft pidRight : PidController ℝ)
    (velocity_targets : robot_velocities ℝ)
    (current_duty_cycles current_motor_speeds : motor_data ℝ)
    (dt : ℝ) (now : ℤ) (open_loop_scale : ℝ) : motor_data ℝ :=
  let measured_velocities :=
    computeVelocitiesFromWheelspeeds current_motor_speeds s.robot_geometry_
  let limited := limitAcceleration velocity_targets measured_velocities
    { linear_velocity := s.max_linear_acceleration_
      angular_velocity := s.max_angular_acceleration_ } dt
  let rs := stanceRadius s.robot_geometry_
  let left_target_speed :=
    (limited.linear_velocity - limited.angular_velocity * rs) /
      s.robot_geometry_.wheel_radius
  let right_target_speed :=
    (limited.linear_velocity + limited.angular_velocity * rs) /
      s.robot_geometry_.wheel_radius
  let measured_left := min current_motor_speeds.fl current_motor_speeds.rl
  let measured_right := min current_motor_speeds.fr current_motor_speeds.rr
  let left_duty :=
    match s.operating_mode_ with
    | robot_motion_mode_t.OPEN_LOOP => open_loop_scale * left_target_speed
    | robot_motion_mode_t.CLOSED_LOOP =>
        (PidController.runControl pidLeft left_target_speed
          measured_left now).2.pid_output
  let right_duty :=
    match s.operating_mode_ with
    | robot_motion_mode_t.OPEN_LOOP => open_loop_scale * right_target_speed
    | robot_motion_mode_t.CLOSED_LOOP =>
        (PidController.runControl pidRight right_target_speed
          measured_right now).2.pid_output
  let left_duty := s.traction_control_gain_ * left_duty
  let right_duty := s.traction_control_gain_ * right_duty
  { fl := clampMag s.max_motor_duty_
      (s.lpf_alpha_ * left_duty +
        (1 - s.lpf_alpha_) * current_duty_cycles.fl)
    fr := clampMag s.max_motor_duty_
      (s.lpf_alpha_ * right_duty +
        (1 - s.lpf_alpha_) * current_duty_cycles.fr)
    rl := clampMag s.max_motor_duty_
      (s.lpf_alpha_ * left_duty +
        (1 - s.lpf_alpha_) * current_duty_cycles.rl)
    rr := clampMag s.max_motor_duty_
      (s.lpf_alpha_ * right_duty +
        (1 - s.lpf_alpha_) * current_duty_cycles.rr) }

/-! Concrete instances used by witnesses and counterexamples. -/

/-- Controller with `kd = 1` and all other gains zero, limits `±10`,
last update at time 0. -/
def pidA : PidController ℚ := ⟨0, 1, 0, 0, 10, 10, -10, 0⟩

/-- Controller with `kp = 2`, `ki = 1`, limits `±3`. -/
def pidB : PidController ℚ := ⟨2, 0, 1, 0, 5, 3, -3, 0⟩

/-- Controller with `kp = 1` and integral-error limit `1`. -/
def pidC : PidController ℚ := ⟨1, 0, 0, 0, 1, 100, -100, 0⟩

/-- Controller with all gains `1`, integral limit `10`, limits `±50`. -/
def pidD : PidController ℚ := ⟨1, 1, 1, 0, 10, 50, -50, 0⟩

/-- Controller built by the one-argument constructor at time 0. -/
def pidE : PidController ℚ := PidController.mkGains ⟨1, 0, 0⟩ 0

/-- A motion controller with a valid geometry. -/
def skidA : SkidRobotMotionController ℚ :=
  SkidRobotMotionController.mkFull robot_motion_mode_t.CLOSED_LOOP
    ⟨1/2, 2/5, 1/10⟩ ⟨1, 0, 0⟩ 100

/-- The degenerate geometry the spec calls a configuration error. -/
def invalidGeometry : robot_geometry ℚ := ⟨0, 0, 0⟩

/-- Output limits with `posmax < negmax`. -/
def invalidLimits : pid_output_limits ℚ := ⟨-1, 1⟩

/-- Degenerate geometry over `ℝ`: both stance dimensions zero. -/
noncomputable def degenerateGeometry : robot_geometry ℝ := ⟨0, 0, 1/10⟩

/-- The spec's scenario geometry
`{wheel_base=0.5, intra_axle_distance=0.4, wheel_radius=0.1}`. -/
noncomputable def geomW : robot_geometry ℝ := ⟨1/2, 2/5, 1/10⟩

/-- A motion controller over `ℝ` for the duty-clamp witness. -/
noncomputable def skidW : SkidRobotMotionController ℝ :=
  SkidRobotMotionController.mkFull robot_motion_mode_t.OPEN_LOOP
    geomW ⟨1, 0, 0⟩ 100

/-- A PID instance over `ℝ` for the duty-clamp witness. -/
noncomputable def pidW : PidController ℝ := PidController.mkGains ⟨1, 0, 0⟩ 0

/-- Witness velocity target: linear jump to 5 m/s. -/
def velTargetW : robot_velocities ℚ := ⟨5, 0⟩

/-- Witness measured velocities: at rest. -/
def velMeasuredW : robot_velocities ℚ := ⟨0, 0⟩

/-- Witness acceleration limits `{linear: 0.5, angular: 0.2}`. -/
def velLimitsW : robot_velocities ℚ := ⟨1/2, 1/5⟩

/-! Helper lemmas. -/

/-- The source's clamping idiom — `if x > hi then hi`, then
`if · < lo then lo` — equals `max lo (min hi x)`, with no assumption
relating `lo` and `hi`. -/
lemma clip_eq {K : Type} [LinearOrderedField K] (hi lo x : K) :
    (if (if x > hi then hi else x) < lo then lo
     else (if x > hi then hi else x)) = max lo (min hi x) := by
  split_ifs with h1 h2 h2
  · rw [min_eq_left h1.le, max_eq_left h2.le]
  · rw [min_eq_left h1.le, max_eq_right (not_lt.mp h2)]
  · rw [min_eq_right (not_lt.mp h1), max_eq_left h2.le]
  · rw [min_eq_right (not_lt.mp h1), max_eq_right (not_lt.mp h2)]

/-- `clampMag m x` lies in `[-m, m]` whenever `0 ≤ m`. -/
lemma clampMag_mem {K : Type} [LinearOrderedField K] (m x : K)
    (hm : 0 ≤ m) : -m ≤ clampMag m x ∧ clampMag m x ≤ m :=
  ⟨le_max_left _ _, max_le (by linarith) (min_le_left _ _)⟩

/-- The output of one `runControl` call, in closed form. -/
lemma runControl_output_eq {K : Type} [LinearOrderedField K]
    (c : PidController K) (target measured : K) (time_now : ℤ) :
    (PidController.runControl c target measured time_now).2.pid_output =
      max c.neg_max_output_ (min c.pos_max_output_
        ((target - measured) * c.kp_ +
          max (-c.integral_error_limit_)
            (min c.integral_error_limit_
              (c.integral_error_ + (target - measured))) * c.ki_ +
          ((Int.tdiv (time_now - c.time_last_) 1000 : ℤ) : K) * c.kd_)) := by
  simp only [PidController.runControl, clip_eq]

/-- The integral accumulator after one `runControl` call, in closed
form. -/
lemma runControl_integral_eq {K : Type} [LinearOrderedField K]
    (c : PidController K) (target measured : K) (time_now : ℤ) :
    (PidController.runControl c target measured time_now).1.integral_error_ =
      max (-c.integral_error_limit_)
        (min c.integral_error_limit_
          (c.integral_error_ + (target - measured))) := by
  simp only [PidController.runControl, clip_eq]

/-- `runControl` never changes the integral-error limit. -/
lemma runControl_limit_eq {K : Type} [LinearOrderedField K]
    (c : PidController K) (target measured : K) (time_now : ℤ) :
    ((PidController.runControl c target measured time_now).1).integral_error_limit_ =
      c.integral_error_limit_ := rfl

/-- Invariant of `runSequence`: the accumulator stays in
`[-limit, limit]` and the limit is unchanged. -/
lemma runSequence_integral_bounds :
    ∀ (calls : List (ℚ × ℚ × ℤ)) (c : PidController ℚ),
      0 ≤ c.integral_error_limit_ →
      -c.integral_error_limit_ ≤ c.integral_error_ →
      c.integral_error_ ≤ c.integral_error_limit_ →
      (-c.integral_error_limit_ ≤
          (PidController.runSequence c calls).integral_error_ ∧
        (PidController.runSequence c calls).integral_error_ ≤
          c.integral_error_limit_) ∧
      (PidController.runSequence c calls).integral_error_limit_ =
        c.integral_error_limit_
  | [], c => fun _ h1 h2 => ⟨⟨h1, h2⟩, rfl⟩
  | (t, m, now) :: rest, c => by
      intro hL _ _
      have hstep := runSequence_integral_bounds rest
        (PidController.runControl c t m now).1
      rw [runControl_limit_eq] at hstep
      refine hstep hL ?_ ?_ <;> rw [runControl_integral_eq]
      · exact le_max_left _ _
      · exact max_le (by linarith) (min_le_left _ _)

/-! Claim theorems. -/

/-- C4, counterexample: with `kd = 1`, all other gains zero and a call
500 ms after the previous one, the code outputs `0` while the claimed
formula — with `dt` the elapsed time in seconds, `0.5` — gives `0.5`:
the claim as stated fails because `delta_time` is computed by integer
division of milliseconds by 1000. -/
theorem runControl_exact_dt_counterexample :
    (PidController.runControl pidA 0 0 500).2.pid_output = 0 ∧
    max pidA.neg_max_output_ (min pidA.pos_max_output_
      ((0 - 0) * pidA.kp_ +
        max (-pidA.integral_error_limit_)
          (min pidA.integral_error_limit_
            (pidA.integral_error_ + (0 - 0))) * pidA.ki_ +
        (((500 : ℚ) - 0) / 1000) * pidA.kd_)) = 1 / 2 ∧
    (0 : ℚ) ≠ 1 / 2 := by
  have htd : Int.tdiv 500 1000 = 0 := by decide
  refine ⟨?_, by norm_num [pidA, min_def, max_def], by norm_num⟩
  rw [runControl_output_eq]
  simp only [pidA]
  norm_num [htd, min_def, max_def]

/-- C4 (amended): the returned output equals
`clamp(p + i + d, [negmax, posmax])` with `p = error · kp`,
`i = ki ·` (the accumulator after adding the error and clamping), and
`d = delta_time · kd`, where `delta_time` is the whole-millisecond
tick difference integer-divided by 1000 (truncated toward zero), not
the exact elapsed seconds. -/
theorem runControl_output_formula (c : PidController ℚ)
    (target measured : ℚ) (time_now : ℤ) :
    (PidController.runControl c target measured time_now).2.pid_output =
      max c.neg_max_output_ (min c.pos_max_output_
        ((target - measured) * c.kp_ +
          max (-c.integral_error_limit_)
            (min c.integral_error_limit_
              (c.integral_error_ + (target - measured))) * c.ki_ +
          ((Int.tdiv (time_now - c.time_last_) 1000 : ℤ) : ℚ) * c.kd_)) :=
  runControl_output_eq c target measured time_now

/-- C5: whenever `posmax ≥ negmax`, the `output` field of the
`pid_outputs` returned by `runControl` lies in `[negmax, posmax]`. -/
theorem runControl_output_within_limits (c : PidController ℚ)
    (target measured : ℚ) (time_now : ℤ)
    (h : c.neg_max_output_ ≤ c.pos_max_output_) :
    c.neg_max_output_ ≤
      (PidController.runControl c target measured time_now).2.pid_output ∧
    (PidController.runControl c target measured time_now).2.pid_output ≤
      c.pos_max_output_ := by
  rw [runControl_output_eq]
  exact ⟨le_max_left _ _, max_le h (min_le_left _ _)⟩

/-- C5 witness: instantiated at `pidB` (limits `±3`), target `3`,
measured `1`, time `700`. -/
theorem runControl_output_within_limits_witness :
    pidB.neg_max_output_ ≤ pidB.pos_max_output_ ∧
    (pidB.neg_max_output_ ≤
        (PidController.runControl pidB 3 1 700).2.pid_output ∧
      (PidController.runControl pidB 3 1 700).2.pid_output ≤
        pidB.pos_max_output_) :=
  ⟨by decide, runControl_output_within_limits pidB 3 1 700 (by decide)⟩

/-- C6: starting from construction (accumulator `0`), with a
non-negative integral-error limit, the accumulator stays in
`[-limit, limit]` after every sequence of `runControl` calls (hence
after each call); and each call sets the accumulator to the previous
value plus `target - measured`, clamped to that interval. -/
theorem integral_error_bounded (c : PidController ℚ)
    (h0 : c.integral_error_ = 0) (hlim : 0 ≤ c.integral_error_limit_) :
    (∀ calls : List (ℚ × ℚ × ℤ),
      -c.integral_error_limit_ ≤
          (PidController.runSequence c calls).integral_error_ ∧
        (PidController.runSequence c calls).integral_error_ ≤
          c.integral_error_limit_) ∧
    (∀ (c' : PidController ℚ) (t m : ℚ) (now : ℤ),
      (PidController.runControl c' t m now).1.integral_error_ =
        max (-c'.integral_error_limit_)
          (min c'.integral_error_limit_
            (c'.integral_error_ + (t - m)))) := by
  constructor
  · intro calls
    exact (runSequence_integral_bounds calls c hlim
      (by rw [h0]; linarith) (by rw [h0]; linarith)).1
  · intro c' t m now
    exact runControl_integral_eq c' t m now

/-- C6 witness: `pidC` (limit `1`) after the two calls
`(5, 1, 100)` then `(0, 3, 1200)`. -/
theorem integral_error_bounded_witness :
    pidC.integral_error_ = 0 ∧ 0 ≤ pidC.integral_error_limit_ ∧
    (-pidC.integral_error_limit_ ≤
        (PidController.runSequence pidC
          [(5, 1, 100), (0, 3, 1200)]).integral_error_ ∧
      (PidController.runSequence pidC
          [(5, 1, 100), (0, 3, 1200)]).integral_error_ ≤
        pidC.integral_error_limit_) :=
  ⟨rfl, by decide,
    (integral_error_bounded pidC rfl (by decide)).1
      [(5, 1, 100), (0, 3, 1200)]⟩

/-- C10: `delta_time` is the whole-millisecond tick difference
integer-divided by 1000 (one-second granularity); consequently two
consecutive calls less than 1000 ms apart see `dt = 0`, so the
derivative contribution vanishes and the returned `dt` field is 0. -/
theorem runControl_delta_time_granularity (c : PidController ℚ)
    (target measured : ℚ) (time_now : ℤ) :
    ((PidController.runControl c target measured time_now).2.dt =
      ((Int.tdiv (time_now - c.time_last_) 1000 : ℤ) : ℚ)) ∧
    (0 ≤ time_now - c.time_last_ → time_now - c.time_last_ < 1000 →
      (PidController.runControl c target measured time_now).2.dt = 0 ∧
      (PidController.runControl c target measured time_now).2.pid_output =
        max c.neg_max_output_ (min c.pos_max_output_
          ((target - measured) * c.kp_ +
            max (-c.integral_error_limit_)
              (min c.integral_error_limit_
                (c.integral_error_ + (target - measured))) * c.ki_))) := by
  have hdt : (PidController.runControl c target measured time_now).2.dt =
      ((Int.tdiv (time_now - c.time_last_) 1000 : ℤ) : ℚ) := rfl
  refine ⟨hdt, fun h0 h1 => ?_⟩
  have hz : Int.tdiv (time_now - c.time_last_) 1000 = 0 := by
    rw [Int.tdiv_eq_ediv h0 (by norm_num)]
    exact Int.ediv_eq_zero_of_lt h0 h1
  constructor
  · rw [hdt, hz]; norm_num
  · rw [runControl_output_eq, hz]
    norm_num

/-- C10 witness: `pidD` (previous call at time 0) called again at
tick 700: `dt = 0` and the output omits the derivative term. -/
theorem runControl_delta_time_granularity_witness :
    (0 ≤ (700 : ℤ) - pidD.time_last_ ∧ (700 : ℤ) - pidD.time_last_ < 1000) ∧
    ((PidController.runControl pidD 2 1 700).2.dt = 0 ∧
      (PidController.runControl pidD 2 1 700).2.pid_output =
        max pidD.neg_max_output_ (min pidD.pos_max_output_
          ((2 - 1) * pidD.kp_ +
            max (-pidD.integral_error_limit_)
              (min pidD.integral_error_limit_
                (pidD.integral_error_ + (2 - 1))) * pidD.ki_))) :=
  ⟨⟨by decide, by decide⟩,
    (runControl_delta_time_granularity pidD 2 1 700).2
      (by decide) (by decide)⟩

/-- C7: for `dt > 0` and non-negative limits, `limitAcceleration`
returns `measured + clampedAcceleration · dt` on each axis, each axis
clamped independently, so `|output − measured| ≤ deltaVLimit · dt` on
each axis. -/
theorem limitAcceleration_bounded
    (target measured limits : robot_velocities ℚ) (dt : ℚ)
    (hdt : 0 < dt) (hlin : 0 ≤ limits.linear_velocity)
    (hang : 0 ≤ limits.angular_velocity) :
    (limitAcceleration target measured limits dt).linear_velocity =
      measured.linear_velocity +
        clampMag limits.linear_velocity
          ((target.linear_velocity - measured.linear_velocity) / dt) * dt ∧
    (limitAcceleration target measured limits dt).angular_velocity =
      measured.angular_velocity +
        clampMag limits.angular_velocity
          ((target.angular_velocity - measured.angular_velocity) / dt) * dt ∧
    |(limitAcceleration target measured limits dt).linear_velocity -
        measured.linear_velocity| ≤ limits.linear_velocity * dt ∧
    |(limitAcceleration target measured limits dt).angular_velocity -
        measured.angular_velocity| ≤ limits.angular_velocity * dt := by
  have e1 : (limitAcceleration target measured limits dt).linear_velocity =
      measured.linear_velocity +
        clampMag limits.linear_velocity
          ((target.linear_velocity - measured.linear_velocity) / dt) * dt := by
    simp only [limitAcceleration, clampMag, clip_eq]
  have e2 : (limitAcceleration target measured limits dt).angular_velocity =
      measured.angular_velocity +
        clampMag limits.angular_velocity
          ((target.angular_velocity - measured.angular_velocity) / dt) * dt := by
    simp only [limitAcceleration, clampMag, clip_eq]
  refine ⟨e1, e2, ?_, ?_⟩
  · rw [e1, add_sub_cancel_left, abs_mul, abs_of_pos hdt]
    exact mul_le_mul_of_nonneg_right
      (abs_le.mpr (clampMag_mem _ _ hlin)) hdt.le
  · rw [e2, add_sub_cancel_left, abs_mul, abs_of_pos hdt]
    exact mul_le_mul_of_nonneg_right
      (abs_le.mpr (clampMag_mem _ _ hang)) hdt.le

/-- C7 witness: the spec scenario — limits `{0.5, 0.2}`, `dt = 0.1`,
target linear jump from 0 to 5 m/s. -/
theorem limitAcceleration_bounded_witness :
    ((0 : ℚ) < 1/10 ∧ 0 ≤ velLimitsW.linear_velocity ∧
      0 ≤ velLimitsW.angular_velocity) ∧
    ((limitAcceleration velTargetW velMeasuredW velLimitsW
          (1/10)).linear_velocity =
        velMeasuredW.linear_velocity +
          clampMag velLimitsW.linear_velocity
            ((velTargetW.linear_velocity -
              velMeasuredW.linear_velocity) / (1/10)) * (1/10) ∧
      (limitAcceleration velTargetW velMeasuredW velLimitsW
          (1/10)).angular_velocity =
        velMeasuredW.angular_velocity +
          clampMag velLimitsW.angular_velocity
            ((velTargetW.angular_velocity -
              velMeasuredW.angular_velocity) / (1/10)) * (1/10) ∧
      |(limitAcceleration velTargetW velMeasuredW velLimitsW
          (1/10)).linear_velocity - velMeasuredW.linear_velocity| ≤
        velLimitsW.linear_velocity * (1/10) ∧
      |(limitAcceleration velTargetW velMeasuredW velLimitsW
          (1/10)).angular_velocity - velMeasuredW.angular_velocity| ≤
        velLimitsW.angular_velocity * (1/10)) :=
  ⟨⟨by norm_num, by norm_num [velLimitsW], by norm_num [velLimitsW]⟩,
    limitAcceleration_bounded velTargetW velMeasuredW velLimitsW (1/10)
      (by norm_num) (by norm_num [velLimitsW]) (by norm_num [velLimitsW])⟩

/-- C8: with strictly positive geometry and all four wheel speeds equal
to `s`, `estimateVelocity` yields zero angular velocity and linear
velocity `s · RPM_TO_RADS_SEC · wheel_radius`. -/
theorem estimateVelocity_equal_speeds (g : robot_geometry ℝ) (s : ℝ)
    (hwb : 0 < g.wheel_base) (hia : 0 < g.intra_axle_distance)
    (hr : 0 < g.wheel_radius) :
    (computeVelocitiesFromWheelspeeds ⟨s, s, s, s⟩ g).angular_velocity = 0 ∧
    (computeVelocitiesFromWheelspeeds ⟨s, s, s, s⟩ g).linear_velocity =
      s * RPM_TO_RADS_SEC * g.wheel_radius := by
  constructor <;>
    simp [computeVelocitiesFromWheelspeeds, min_self]

/-- C8 witness: the spec scenario — geometry
`{wheel_base=0.5, intra_axle_distance=0.4, wheel_radius=0.1}` and all
four wheel speeds `10`. -/
theorem estimateVelocity_equal_speeds_witness :
    ((0 : ℝ) < geomW.wheel_base ∧ 0 < geomW.intra_axle_distance ∧
      0 < geomW.wheel_radius) ∧
    (computeVelocitiesFromWheelspeeds ⟨10, 10, 10, 10⟩
        geomW).angular_velocity = 0 ∧
    (computeVelocitiesFromWheelspeeds ⟨10, 10, 10, 10⟩
        geomW).linear_velocity = 10 * RPM_TO_RADS_SEC * geomW.wheel_radius :=
  ⟨⟨by norm_num [geomW], by norm_num [geomW], by norm_num [geomW]⟩,
    (estimateVelocity_equal_speeds geomW 10 (by norm_num [geomW])
        (by norm_num [geomW]) (by norm_num [geomW])).1,
    (estimateVelocity_equal_speeds geomW 10 (by norm_num [geomW])
        (by norm_num [geomW]) (by norm_num [geomW])).2⟩

/-- C2: with both geometry dimensions zero the stance circumference is
zero, and `computeVelocitiesFromWheelspeeds` reaches its unguarded
division by that zero (`none` in the instrumented embedding): the code
has no guard and no configuration-error report — in IEEE arithmetic
the angular velocity becomes `±Inf`/`NaN` — contradicting the claim. -/
theorem estimateVelocity_degenerate_unguarded :
    stanceCircumference degenerateGeometry = 0 ∧
    computeVelocitiesChecked ⟨1, 2, 1, 2⟩ degenerateGeometry = none := by
  have h0 : stanceRadius degenerateGeometry = 0 := by
    norm_num [stanceRadius, degenerateGeometry, Real.sqrt_zero]
  have hc : stanceCircumference degenerateGeometry = 0 := by
    rw [stanceCircumference, h0, mul_zero]
  refine ⟨hc, ?_⟩
  simp only [computeVelocitiesChecked]
  simp [hc]

/-- C3: at `dt = 0` with target equal to measured, the unguarded
division `0/0` makes `limitAcceleration` return NaN on both axes (in
the IEEE-faithful `FV` embedding), not the measured velocities and not
an explicit failure — contradicting the claim. -/
theorem limitAcceleration_dt_zero_nan :
    FV.limitAcceleration ⟨FV.fin 1, FV.fin 1⟩ ⟨FV.fin 1, FV.fin 1⟩
        ⟨FV.fin 1, FV.fin 1⟩ (FV.fin 0) =
      (⟨FV.nan, FV.nan⟩ : robot_velocities FV) ∧
    (⟨FV.nan, FV.nan⟩ : robot_velocities FV) ≠ ⟨FV.fin 1, FV.fin 1⟩ := by
  constructor
  · simp only [FV.limitAcceleration, FV.sub, FV.div, FV.neg, FV.gt,
      FV.lt, FV.mul, FV.add]
    norm_num
  · decide

/-- C9: invalid configurations are silently accepted, not rejected:
the constructor and `setRobotGeometry` store the all-zero geometry
unchanged, and `setOutputLimits` stores `posmax = -1 < 1 = negmax`;
all three are `void`/plain assignments with no error report —
contradicting the claim. -/
theorem invalid_configuration_accepted :
    (SkidRobotMotionController.mkFull robot_motion_mode_t.CLOSED_LOOP
        invalidGeometry ⟨1, 0, 0⟩ (100 : ℚ)).robot_geometry_ =
      invalidGeometry ∧
    (SkidRobotMotionController.setRobotGeometry skidA
        invalidGeometry).robot_geometry_ = invalidGeometry ∧
    (PidController.setOutputLimits pidE invalidLimits).pos_max_output_ =
      -1 ∧
    (PidController.setOutputLimits pidE invalidLimits).neg_max_output_ =
      1 ∧
    (PidController.setOutputLimits pidE invalidLimits).pos_max_output_ <
      (PidController.setOutputLimits pidE invalidLimits).neg_max_output_ :=
  ⟨rfl, rfl, rfl, rfl, by decide⟩

/-- C1 (spec-modelled completion): every duty value returned by the
motion-control cycle lies in `[-max_motor_duty, +max_motor_duty]`,
for every velocity target, current-duty set and wheel-speed set
(assuming the configured duty limit is non-negative). -/
theorem runMotionControl_duty_clamped (s : SkidRobotMotionController ℝ)
    (pidLeft pidRight : PidController ℝ)
    (velocity_targets : robot_velocities ℝ)
    (current_duty_cycles current_motor_speeds : motor_data ℝ)
    (dt : ℝ) (now : ℤ) (open_loop_scale : ℝ)
    (h : 0 ≤ s.max_motor_duty_) :
    (-s.max_motor_duty_ ≤
        (runMotionControlModel s pidLeft pidRight velocity_targets
          current_duty_cycles current_motor_speeds dt now
          open_loop_scale).fl ∧
      (runMotionControlModel s pidLeft pidRight velocity_targets
          current_duty_cycles current_motor_speeds dt now
          open_loop_scale).fl ≤ s.max_motor_duty_) ∧
    (-s.max_motor_duty_ ≤
        (runMotionControlModel s pidLeft pidRight velocity_targets
          current_duty_cycles current_motor_speeds dt now
          open_loop_scale).fr ∧
      (runMotionControlModel s pidLeft pidRight velocity_targets
          current_duty_cycles current_motor_speeds dt now
          open_loop_scale).fr ≤ s.max_motor_duty_) ∧
    (-s.max_motor_duty_ ≤
        (runMotionControlModel s pidLeft pidRight velocity_targets
          current_duty_cycles current_motor_speeds dt now
          open_loop_scale).rl ∧
      (runMotionControlModel s pidLeft pidRight velocity_targets
          current_duty_cycles current_motor_speeds dt now
          open_loop_scale).rl ≤ s.max_motor_duty_) ∧
    (-s.max_motor_duty_ ≤
        (runMotionControlModel s pidLeft pidRight velocity_targets
          current_duty_cycles current_motor_speeds dt now
          open_loop_scale).rr ∧
      (runMotionControlModel s pidLeft pidRight velocity_targets
          current_duty_cycles current_motor_speeds dt now
          open_loop_scale).rr ≤ s.max_motor_duty_) := by
  simp only [runMotionControlModel]
  exact ⟨clampMag_mem _ _ h, clampMag_mem _ _ h,
    clampMag_mem _ _ h, clampMag_mem _ _ h⟩

/-- C1 witness: the duty bound at a concrete open-loop cycle with duty
limit 100. -/
theorem runMotionControl_duty_clamped_witness :
    (0 : ℝ) ≤ skidW.max_motor_duty_ ∧
    ((-skidW.max_motor_duty_ ≤
        (runMotionControlModel skidW pidW pidW ⟨1, 0⟩ ⟨0, 0, 0, 0⟩
          ⟨0, 0, 0, 0⟩ (1/10) 0 1).fl ∧
      (runMotionControlModel skidW pidW pidW ⟨1, 0⟩ ⟨0, 0, 0, 0⟩
          ⟨0, 0, 0, 0⟩ (1/10) 0 1).fl ≤ skidW.max_motor_duty_) ∧
    (-skidW.max_motor_duty_ ≤
        (runMotionControlModel skidW pidW pidW ⟨1, 0⟩ ⟨0, 0, 0, 0⟩
          ⟨0, 0, 0, 0⟩ (1/10) 0 1).fr ∧
      (runMotionControlModel skidW pidW pidW ⟨1, 0⟩ ⟨0, 0, 0, 0⟩
          ⟨0, 0, 0, 0⟩ (1/10) 0 1).fr ≤ skidW.max_motor_duty_) ∧
    (-skidW.max_motor_duty_ ≤
        (runMotionControlModel skidW pidW pidW ⟨1, 0⟩ ⟨0, 0, 0, 0⟩
          ⟨0, 0, 0, 0⟩ (1/10) 0 1).rl ∧
      (runMotionControlModel skidW pidW pidW ⟨1, 0⟩ ⟨0, 0, 0, 0⟩
          ⟨0, 0, 0, 0⟩ (1/10) 0 1).rl ≤ skidW.max_motor_duty_) ∧
    (-skidW.max_motor_duty_ ≤
        (runMotionControlModel skidW pidW pidW ⟨1, 0⟩ ⟨0, 0, 0, 0⟩
          ⟨0, 0, 0, 0⟩ (1/10) 0 1).rr ∧
      (runMotionControlModel skidW pidW pidW ⟨1, 0⟩ ⟨0, 0, 0, 0⟩
          ⟨0, 0, 0, 0⟩ (1/10) 0 1).rr ≤ skidW.max_motor_duty_)) :=
  ⟨by norm_num [skidW, SkidRobotMotionController.mkFull],
    runMotionControl_duty_clamped skidW pidW pidW ⟨1, 0⟩ ⟨0, 0, 0, 0⟩
      ⟨0, 0, 0, 0⟩ (1/10) 0 1
      (by norm_num [skidW, SkidRobotMotionController.mkFull])⟩

end Control
